import Mathlib

/-
Shallow embedding of src/ctxcore/rnkdb.py.

The file is a thin adapter over an external columnar ranking store
(CisTargetDatabase, an out-of-scope collaborator).  We model:
  - the ranking table (pandas DataFrame) as a feature row index together
    with an ordered list of (gene id, rank column) pairs;
  - the external store from its contract: a full ordered identifier list,
    a feature row index, and a column-materialization operation that
    returns the columns of the requested identifier collection in the
    store order;
  - the filesystem and the store-opening call as an explicit environment;
  - Python assert failures as Except errors, with the error kinds the
    documentation names (InvalidArgument, NotFound, UnsupportedFormat);
  - the memoize-cached properties (genes, total_genes, geneset) as an
    explicit cache state threaded through the accessors.
-/

namespace Ctxcore

/-- A ranking table: rows indexed by regulatory feature, columns by gene
identifier, holding 0-based integer ranks.  Models the pandas DataFrame
returned by the load operations; cols keeps the column order. -/
structure Table where
  features : List String
  cols : List (String × List Int)
deriving DecidableEq

/-- Model of the external region/gene ranking store (CisTargetDatabase),
from its contract: full ordered identifier list, feature row index, and a
rank column for every identifier. -/
structure CisTargetDatabase where
  ids : List String
  featureIndex : List String
  ranks : String → List Int

/-- Total identifier count of the store: the count of its full ordered
identifier list (store invariant of the external contract). -/
def CisTargetDatabase.nbr_total_region_or_gene_ids (db : CisTargetDatabase) : Nat :=
  db.ids.length

/-- Materialize the columns of the requested identifier collection, in the
store order of the identifiers (models subset_to_pandas; the collection
passed by the adapter is a Python set, so only membership matters). -/
def CisTargetDatabase.subset_to_pandas (db : CisTargetDatabase) (s : Finset String) : Table :=
  ⟨db.featureIndex, (db.ids.filter (fun g => decide (g ∈ s))).map (fun g => (g, db.ranks g))⟩

/-- External gene signature contract: a read-only genes accessor (the list
may carry duplicates and any order). -/
structure GeneSignature where
  genes : List String

/-- Error kinds of the adapter, as the specification names them. -/
inductive DbError
  | invalidArgument (msg : String)
  | notFound (msg : String)
  | unsupportedFormat (msg : String)
deriving DecidableEq

/-- Environment: the filesystem predicate (os.path.isfile) and the
external store obtained by CisTargetDatabase.init_ct_db for a filename. -/
structure Env where
  isfile : String → Bool
  store : String → CisTargetDatabase

/-- Characters of the last path component (os.path basename): everything
after the last path separator. -/
def basenameChars (p : String) : List Char :=
  (p.toList.reverse.takeWhile (fun c => c != '/')).reverse

/-- Extension of a basename, as os.path.splitext computes it: the part
from the last dot, except that leading dots of the basename never start
an extension. -/
def extOfBase (base : List Char) : List Char :=
  let lead := base.takeWhile (fun c => c == '.')
  let rest := base.drop lead.length
  let afterDot := rest.reverse.takeWhile (fun c => c != '.')
  if afterDot.length = rest.length then [] else '.' :: afterDot.reverse

/-- The extension component of os.path.splitext(p). -/
def splitextExt (p : String) : String :=
  String.mk (extOfBase (basenameChars p))

/-- Parse of a Python int(...) literal: surrounding whitespace, an
optional sign, then decimal digits.  (Digit-group underscores and
non-ASCII digits accepted by Python are not modelled.) -/
def parsePyInt (s : String) : Option Int :=
  let t := ((s.toList.dropWhile Char.isWhitespace).reverse.dropWhile Char.isWhitespace).reverse
  match t with
  | [] => none
  | c :: rest =>
    let signed : Bool × List Char :=
      if c == '-' then (true, rest) else if c == '+' then (false, rest) else (false, c :: rest)
    if signed.2.isEmpty || !signed.2.all Char.isDigit then none
    else
      let n : Nat := signed.2.foldl (fun acc d => acc * 10 + (d.toNat - 48)) 0
      some (if signed.1 then -(n : Int) else (n : Int))

namespace PyArrowThreads

/-- Resolution of the process-wide PyArrow thread count from the value of
the environment variable PYARROW_THREADS (none when unset).  Mirrors the
class body of PyArrowThreads: default 4; when the variable is truthy, try
to parse it as an integer, keeping the default on failure, then clamp a
result below 1 up to 1. -/
def pyarrow_threads (envVal : Option String) : Int :=
  match envVal with
  | none => 4
  | some s =>
    if s = "" then 4
    else
      let t : Int :=
        match parsePyInt s with
        | some n => n
        | none => 4
      if t < 1 then 1 else t

end PyArrowThreads

/-- File-backed ranking database: the stored name, the filename and the
opened external store handle. -/
structure FeatherRankingDatabase where
  name : String
  fname : String
  ct_db : CisTargetDatabase

/-- Construction of a FeatherRankingDatabase: the superclass constructor
asserts the name is non-empty first, then the file-existence assert runs,
then the store is opened eagerly. -/
def FeatherRankingDatabase.init (env : Env) (fname : String) (name : String) :
    Except DbError FeatherRankingDatabase :=
  if name = "" then .error (.invalidArgument "Name must be specified.")
  else if env.isfile fname then .ok ⟨name, fname, env.store fname⟩
  else .error (.notFound ("Database " ++ fname ++ " does not exist."))

/-- The memoize caches of the per-instance properties genes, total_genes
and geneset. -/
structure FeatherCache where
  genes : Option (List String)
  total_genes : Option Nat
  geneset : Option (Finset String)

/-- Cache state of a freshly constructed instance: nothing computed yet. -/
def FeatherCache.empty : FeatherCache := ⟨none, none, none⟩

/-- The genes property (memoized): the full ordered identifier list of
the store. -/
def FeatherRankingDatabase.genes (db : FeatherRankingDatabase) (c : FeatherCache) :
    List String × FeatherCache :=
  match c.genes with
  | some g => (g, c)
  | none => (db.ct_db.ids, { c with genes := some db.ct_db.ids })

/-- The total_genes property (memoized): the total identifier count of
the store. -/
def FeatherRankingDatabase.total_genes (db : FeatherRankingDatabase) (c : FeatherCache) :
    Nat × FeatherCache :=
  match c.total_genes with
  | some n => (n, c)
  | none =>
    (db.ct_db.nbr_total_region_or_gene_ids,
      { c with total_genes := some db.ct_db.nbr_total_region_or_gene_ids })

/-- The geneset property (memoized): the set of the genes property. -/
def FeatherRankingDatabase.geneset (db : FeatherRankingDatabase) (c : FeatherCache) :
    Finset String × FeatherCache :=
  match c.geneset with
  | some s => (s, c)
  | none =>
    let p := db.genes c
    (p.1.toFinset, { p.2 with geneset := some p.1.toFinset })

/-- load_full: ask the store to materialize all identifiers (passes the
full identifier collection straight to the store; no memoization). -/
def FeatherRankingDatabase.load_full (db : FeatherRankingDatabase) : Table :=
  db.ct_db.subset_to_pandas db.ct_db.ids.toFinset

/-- load: intersect the geneset with the set of the signature genes and
ask the store to materialize exactly those columns. -/
def FeatherRankingDatabase.load (db : FeatherRankingDatabase) (c : FeatherCache)
    (gs : GeneSignature) : Table × FeatherCache :=
  let p := db.geneset c
  (db.ct_db.subset_to_pandas (p.1 ∩ gs.genes.toFinset), p.2)

/-- A cache state is valid for a database when every filled slot holds
the value the property computes (every state reachable from
FeatherCache.empty through the accessors is valid). -/
def FeatherRankingDatabase.cacheValid (db : FeatherRankingDatabase) (c : FeatherCache) : Prop :=
  (c.genes = none ∨ c.genes = some db.ct_db.ids) ∧
  (c.total_genes = none ∨ c.total_genes = some db.ct_db.nbr_total_region_or_gene_ids) ∧
  (c.geneset = none ∨ c.geneset = some db.ct_db.ids.toFinset)

/-- In-memory caching decorator: the wrapped database, the retained full
table, and the name copied by the superclass constructor. -/
structure MemoryDecorator where
  wrapped : FeatherRankingDatabase
  df : Table
  name : String

/-- Construction of a MemoryDecorator: load_full of the wrapped database
runs once, then the superclass constructor asserts the wrapped name is
non-empty. -/
def MemoryDecorator.init (db : FeatherRankingDatabase) : Except DbError MemoryDecorator :=
  let t := db.load_full
  if db.name = "" then .error (.invalidArgument "Name must be specified.")
  else .ok ⟨db, t, db.name⟩

/-- total_genes of the decorator: pure delegation to the wrapped
database. -/
def MemoryDecorator.total_genes (m : MemoryDecorator) (c : FeatherCache) :
    Nat × FeatherCache :=
  m.wrapped.total_genes c

/-- genes of the decorator: pure delegation to the wrapped database. -/
def MemoryDecorator.genes (m : MemoryDecorator) (c : FeatherCache) :
    List String × FeatherCache :=
  m.wrapped.genes c

/-- load_full of the decorator: the retained cached table. -/
def MemoryDecorator.load_full (m : MemoryDecorator) : Table := m.df

/-- load of the decorator: the column subset of the cached table whose
column names are members of the signature genes, in cached column
order (df.loc with a columns.isin mask). -/
def MemoryDecorator.load (m : MemoryDecorator) (gs : GeneSignature) : Table :=
  ⟨m.df.features, m.df.cols.filter (fun col => decide (col.1 ∈ gs.genes))⟩

/-- The factory opendb: the file-existence assert runs first, then the
name assert, then dispatch on the splitext extension, constructing a
FeatherRankingDatabase for ".feather" and failing with an
UnsupportedFormat error naming the extension otherwise. -/
def opendb (env : Env) (fname : String) (name : String) :
    Except DbError FeatherRankingDatabase :=
  if env.isfile fname then
    if name = "" then .error (.invalidArgument "A database should be given a proper name.")
    else if splitextExt fname = ".feather" then FeatherRankingDatabase.init env fname name
    else .error (.unsupportedFormat (splitextExt fname ++ " is an unknown extension."))
  else .error (.notFound (fname ++ " does not exist."))

/-- A concrete store used by the witnesses: four genes, two features. -/
def ctW : CisTargetDatabase :=
  ⟨["A", "B", "C", "D"], ["f1", "f2"],
   fun g => if g = "A" then [0, 1] else if g = "B" then [1, 0]
            else if g = "C" then [2, 3] else [3, 2]⟩

/-- A concrete environment holding ctW at the path db.feather. -/
def envW : Env := ⟨fun p => decide (p = "db.feather"), fun _ => ctW⟩

/-- A concrete file-backed database over ctW. -/
def dbW : FeatherRankingDatabase := ⟨"dbW", "db.feather", ctW⟩

/-- A concrete signature with a duplicated gene and a gene missing from
ctW. -/
def gsW : GeneSignature := ⟨["B", "D", "D", "E"]⟩

/-- The genes of gsW reordered and deduplicated: same gene set. -/
def gsW2 : GeneSignature := ⟨["E", "D", "B"]⟩

/-- The memory decorator over dbW, as its construction produces it. -/
def mW : MemoryDecorator := ⟨dbW, dbW.load_full, "dbW"⟩

/-- The column names of a store subset are the store identifiers filtered
by membership in the requested set, in store order. -/
theorem subset_cols_fst (db : CisTargetDatabase) (s : Finset String) :
    (db.subset_to_pandas s).cols.map Prod.fst = db.ids.filter (fun g => decide (g ∈ s)) := by
  simp [CisTargetDatabase.subset_to_pandas, List.map_map, Function.comp_def]

/-- The set of column names of a store subset is the intersection of the
store identifier set with the requested set. -/
theorem subset_cols_toFinset (db : CisTargetDatabase) (s : Finset String) :
    ((db.subset_to_pandas s).cols.map Prod.fst).toFinset = db.ids.toFinset ∩ s := by
  rw [subset_cols_fst]
  ext x
  simp [List.mem_filter]

/-- On a valid cache the geneset property returns the set of store
identifiers. -/
theorem geneset_val (db : FeatherRankingDatabase) (c : FeatherCache)
    (h : db.cacheValid c) : (db.geneset c).1 = db.ct_db.ids.toFinset := by
  obtain ⟨hg, -, hs⟩ := h
  rcases hs with hs | hs
  · rcases hg with hg | hg <;>
      simp [FeatherRankingDatabase.geneset, FeatherRankingDatabase.genes, hs, hg]
  · simp [FeatherRankingDatabase.geneset, hs]

/-- C3: the thread count resolves to the parsed integer clamped up to 1
when PYARROW_THREADS parses as an integer, and to the default 4 when it
is set but unparseable; in particular "0" resolves to 1 and "abc" to 4. -/
theorem pyarrow_threads_resolution :
    (∀ (s : String) (n : Int), parsePyInt s = some n →
        PyArrowThreads.pyarrow_threads (some s) = if n < 1 then 1 else n)
    ∧ (∀ s : String, parsePyInt s = none → PyArrowThreads.pyarrow_threads (some s) = 4)
    ∧ PyArrowThreads.pyarrow_threads (some "0") = 1
    ∧ PyArrowThreads.pyarrow_threads (some "abc") = 4 := by
  refine ⟨?_, ?_, by decide, by decide⟩
  · intro s n h
    by_cases hs : s = ""
    · rw [hs] at h
      have : parsePyInt "" = none := by decide
      rw [this] at h
      cases h
    · simp [PyArrowThreads.pyarrow_threads, hs, h]
  · intro s h
    by_cases hs : s = ""
    · simp [PyArrowThreads.pyarrow_threads, hs]
    · simp [PyArrowThreads.pyarrow_threads, hs, h]

/-- C3 witness: the resolution theorem applied to the parseable value "7"
and the unparseable value "xy". -/
theorem pyarrow_threads_resolution_witness :
    parsePyInt "7" = some 7 ∧ PyArrowThreads.pyarrow_threads (some "7") = (if (7 : Int) < 1 then 1 else 7)
    ∧ parsePyInt "xy" = none ∧ PyArrowThreads.pyarrow_threads (some "xy") = 4 :=
  ⟨by decide, pyarrow_threads_resolution.1 "7" 7 (by decide), by decide,
    pyarrow_threads_resolution.2.1 "xy" (by decide)⟩

/-- C4: on an existing file whose extension is not ".feather" and a
non-empty name, opendb fails with an UnsupportedFormat error whose
message names the extension, and no database value is produced. -/
theorem opendb_unsupported_extension (env : Env) (fname name : String)
    (hf : env.isfile fname = true) (hn : name ≠ "")
    (he : splitextExt fname ≠ ".feather") :
    opendb env fname name
      = .error (.unsupportedFormat (splitextExt fname ++ " is an unknown extension."))
    ∧ ∀ db, opendb env fname name ≠ .ok db := by
  constructor
  · simp [opendb, hf, hn, he]
  · intro db
    simp [opendb, hf, hn, he]

/-- C4 witness: the theorem applied to an existing file db.txt. -/
theorem opendb_unsupported_extension_witness :
    (Env.mk (fun p => decide (p = "db.txt")) (fun _ => ⟨[], [], fun _ => []⟩)).isfile "db.txt" = true
    ∧ ("nm" : String) ≠ ""
    ∧ splitextExt "db.txt" ≠ ".feather"
    ∧ opendb (Env.mk (fun p => decide (p = "db.txt")) (fun _ => ⟨[], [], fun _ => []⟩)) "db.txt" "nm"
        = .error (.unsupportedFormat (splitextExt "db.txt" ++ " is an unknown extension.")) :=
  ⟨by decide, by decide, by decide,
    (opendb_unsupported_extension
      (Env.mk (fun p => decide (p = "db.txt")) (fun _ => ⟨[], [], fun _ => []⟩))
      "db.txt" "nm" (by decide) (by decide) (by decide)).1⟩

/-- C5: direct construction fails with NotFound on a missing file (under
a non-empty name), with InvalidArgument on an empty name, and succeeds
only when both checks pass, so neither failure is deferred past
construction (load itself is total and cannot fail in this model). -/
theorem feather_init_errors (env : Env) (fname name : String) :
    (name ≠ "" → env.isfile fname = false →
        FeatherRankingDatabase.init env fname name
          = .error (.notFound ("Database " ++ fname ++ " does not exist.")))
    ∧ (name = "" →
        FeatherRankingDatabase.init env fname name
          = .error (.invalidArgument "Name must be specified."))
    ∧ (∀ db, FeatherRankingDatabase.init env fname name = .ok db →
        name ≠ "" ∧ env.isfile fname = true) := by
  refine ⟨?_, ?_, ?_⟩
  · intro hn hf
    simp [FeatherRankingDatabase.init, hn, hf]
  · intro hn
    simp [FeatherRankingDatabase.init, hn]
  · intro db h
    by_cases hn : name = ""
    · simp [FeatherRankingDatabase.init, hn] at h
    · by_cases hf : env.isfile fname
      · exact ⟨hn, hf⟩
      · simp [FeatherRankingDatabase.init, hn, hf] at h

/-- C5 witness: the theorem applied to an environment with no files, the
missing path nope.feather and the name nm, and separately to the empty
name. -/
theorem feather_init_errors_witness :
    (("nm" : String) ≠ "") ∧ (Env.mk (fun _ => false) (fun _ => ⟨[], [], fun _ => []⟩)).isfile "nope.feather" = false
    ∧ FeatherRankingDatabase.init (Env.mk (fun _ => false) (fun _ => ⟨[], [], fun _ => []⟩)) "nope.feather" "nm"
        = .error (.notFound ("Database " ++ "nope.feather" ++ " does not exist."))
    ∧ FeatherRankingDatabase.init (Env.mk (fun _ => false) (fun _ => ⟨[], [], fun _ => []⟩)) "nope.feather" ""
        = .error (.invalidArgument "Name must be specified.") :=
  ⟨by decide, by decide,
    (feather_init_errors (Env.mk (fun _ => false) (fun _ => ⟨[], [], fun _ => []⟩))
      "nope.feather" "nm").1 (by decide) (by decide),
    (feather_init_errors (Env.mk (fun _ => false) (fun _ => ⟨[], [], fun _ => []⟩))
      "nope.feather" "").2.1 rfl⟩

/-- C9: on an empty name together with a missing file, direct
construction fails with the empty-name InvalidArgument error (name
checked first), while opendb fails with the missing-file NotFound error
(file checked first). -/
theorem construction_check_order_differs (env : Env) (fname : String)
    (hf : env.isfile fname = false) :
    FeatherRankingDatabase.init env fname "" = .error (.invalidArgument "Name must be specified.")
    ∧ opendb env fname "" = .error (.notFound (fname ++ " does not exist.")) := by
  constructor
  · simp [FeatherRankingDatabase.init]
  · simp [opendb, hf]

/-- C9 witness: the theorem applied to an environment with no files and
the path nope.feather. -/
theorem construction_check_order_differs_witness :
    (Env.mk (fun _ => false) (fun _ => ⟨[], [], fun _ => []⟩)).isfile "nope.feather" = false
    ∧ FeatherRankingDatabase.init (Env.mk (fun _ => false) (fun _ => ⟨[], [], fun _ => []⟩)) "nope.feather" ""
        = .error (.invalidArgument "Name must be specified.")
    ∧ opendb (Env.mk (fun _ => false) (fun _ => ⟨[], [], fun _ => []⟩)) "nope.feather" ""
        = .error (.notFound ("nope.feather" ++ " does not exist.")) :=
  ⟨by decide,
    (construction_check_order_differs (Env.mk (fun _ => false) (fun _ => ⟨[], [], fun _ => []⟩))
      "nope.feather" (by decide)).1,
    (construction_check_order_differs (Env.mk (fun _ => false) (fun _ => ⟨[], [], fun _ => []⟩))
      "nope.feather" (by decide)).2⟩

/-- A second geneset access returns the value of the first and leaves the
cache of the first unchanged. -/
theorem geneset_stable (db : FeatherRankingDatabase) (c : FeatherCache) :
    db.geneset ((db.geneset c).2) = ((db.geneset c).1, (db.geneset c).2) := by
  cases hs : c.geneset
  · cases hg : c.genes <;>
      simp [FeatherRankingDatabase.geneset, FeatherRankingDatabase.genes, hs, hg]
  · simp [FeatherRankingDatabase.geneset, hs]

/-- A geneset access does not change the value of the genes property. -/
theorem genes_after_geneset (db : FeatherRankingDatabase) (c : FeatherCache) :
    (db.genes ((db.geneset c).2)).1 = (db.genes c).1 := by
  cases hs : c.geneset
  · cases hg : c.genes <;>
      simp [FeatherRankingDatabase.geneset, FeatherRankingDatabase.genes, hs, hg]
  · simp [FeatherRankingDatabase.geneset, hs]

/-- A geneset access does not change the value of the total_genes
property. -/
theorem total_after_geneset (db : FeatherRankingDatabase) (c : FeatherCache) :
    (db.total_genes ((db.geneset c).2)).1 = (db.total_genes c).1 := by
  cases hs : c.geneset
  · cases hg : c.genes <;> cases ht : c.total_genes <;>
      simp [FeatherRankingDatabase.geneset, FeatherRankingDatabase.genes,
        FeatherRankingDatabase.total_genes, hs, hg, ht]
  · simp [FeatherRankingDatabase.geneset, hs]

/-- C1: on a file-backed database the set of gene columns of load is the
intersection of the database gene set with the set of signature genes,
all feature rows are kept, and the result depends on the signature only
through its gene set, so duplicates and ordering are irrelevant. -/
theorem load_columns_eq_intersection (db : FeatherRankingDatabase) (c : FeatherCache)
    (gs : GeneSignature) (h : db.cacheValid c) :
    (((db.load c gs).1.cols.map Prod.fst).toFinset
        = db.ct_db.ids.toFinset ∩ gs.genes.toFinset)
    ∧ (db.load c gs).1.features = db.ct_db.featureIndex
    ∧ ∀ gs2 : GeneSignature, gs.genes.toFinset = gs2.genes.toFinset →
        (db.load c gs).1 = (db.load c gs2).1 := by
  refine ⟨?_, ?_, ?_⟩
  · have : (db.load c gs).1 = db.ct_db.subset_to_pandas ((db.geneset c).1 ∩ gs.genes.toFinset) :=
      rfl
    rw [this, subset_cols_toFinset, geneset_val db c h, ← Finset.inter_assoc,
      Finset.inter_self]
  · simp [FeatherRankingDatabase.load, CisTargetDatabase.subset_to_pandas]
  · intro gs2 hgs
    simp [FeatherRankingDatabase.load, hgs]

/-- C1 witness: the theorem applied to dbW with an empty cache, the
signature gsW with a duplicate and an absent gene, and the reordered
deduplicated signature gsW2. -/
theorem load_columns_eq_intersection_witness :
    dbW.cacheValid FeatherCache.empty
    ∧ gsW.genes.toFinset = gsW2.genes.toFinset
    ∧ (((dbW.load FeatherCache.empty gsW).1.cols.map Prod.fst).toFinset
        = dbW.ct_db.ids.toFinset ∩ gsW.genes.toFinset)
    ∧ (dbW.load FeatherCache.empty gsW).1 = (dbW.load FeatherCache.empty gsW2).1 :=
  ⟨⟨Or.inl rfl, Or.inl rfl, Or.inl rfl⟩, by decide,
    (load_columns_eq_intersection dbW FeatherCache.empty gsW
      ⟨Or.inl rfl, Or.inl rfl, Or.inl rfl⟩).1,
    (load_columns_eq_intersection dbW FeatherCache.empty gsW
      ⟨Or.inl rfl, Or.inl rfl, Or.inl rfl⟩).2.2 gsW2 (by decide)⟩

/-- C2: a decorator constructed over a file-backed database returns from
load_full the very table the wrapped load_full produces: same columns
with the same ranks and the same feature rows. -/
theorem decorator_load_full_refines (db : FeatherRankingDatabase) (m : MemoryDecorator)
    (h : MemoryDecorator.init db = .ok m) :
    m.load_full = db.load_full ∧ m.load_full.cols = db.load_full.cols
    ∧ m.load_full.features = db.load_full.features := by
  by_cases hn : db.name = ""
  · simp [MemoryDecorator.init, hn] at h
  · simp [MemoryDecorator.init, hn] at h
    subst h
    exact ⟨rfl, rfl, rfl⟩

/-- C2 witness: the theorem applied to dbW and its decorator mW. -/
theorem decorator_load_full_refines_witness :
    MemoryDecorator.init dbW = .ok mW ∧ mW.load_full = dbW.load_full :=
  ⟨rfl, (decorator_load_full_refines dbW mW rfl).1⟩

/-- C6: for the file-backed database and for the decorator, the value of
total_genes equals the length of the value of genes, on every valid
cache state. -/
theorem total_genes_eq_len_genes :
    (∀ (db : FeatherRankingDatabase) (c : FeatherCache), db.cacheValid c →
        (db.total_genes c).1 = ((db.genes c).1).length)
    ∧ ∀ (m : MemoryDecorator) (c : FeatherCache), m.wrapped.cacheValid c →
        (m.total_genes c).1 = ((m.genes c).1).length := by
  have key : ∀ (db : FeatherRankingDatabase) (c : FeatherCache), db.cacheValid c →
      (db.total_genes c).1 = ((db.genes c).1).length := by
    intro db c h
    obtain ⟨hg, ht, -⟩ := h
    rcases ht with ht | ht <;> rcases hg with hg | hg <;>
      simp [FeatherRankingDatabase.total_genes, FeatherRankingDatabase.genes,
        CisTargetDatabase.nbr_total_region_or_gene_ids, ht, hg]
  exact ⟨key, fun m c h => key m.wrapped c h⟩

/-- C6 witness: the theorem applied to dbW, and to its decorator mW, on
the empty cache. -/
theorem total_genes_eq_len_genes_witness :
    dbW.cacheValid FeatherCache.empty
    ∧ (dbW.total_genes FeatherCache.empty).1 = ((dbW.genes FeatherCache.empty).1).length
    ∧ (mW.total_genes FeatherCache.empty).1 = ((mW.genes FeatherCache.empty).1).length :=
  ⟨⟨Or.inl rfl, Or.inl rfl, Or.inl rfl⟩,
    total_genes_eq_len_genes.1 dbW FeatherCache.empty ⟨Or.inl rfl, Or.inl rfl, Or.inl rfl⟩,
    total_genes_eq_len_genes.2 mW FeatherCache.empty ⟨Or.inl rfl, Or.inl rfl, Or.inl rfl⟩⟩

/-- C7: the decorator load returns the columns of the cached table whose
genes are in the signature (the set of returned columns is the
intersection of the cached column set with the signature gene set), as a
sublist of the cached columns, hence in original cached order, with the
feature rows unchanged. -/
theorem decorator_load_membership (m : MemoryDecorator) (gs : GeneSignature) :
    (((m.load gs).cols.map Prod.fst).toFinset
        = (m.df.cols.map Prod.fst).toFinset ∩ gs.genes.toFinset)
    ∧ ((m.load gs).cols).Sublist m.df.cols
    ∧ (m.load gs).features = m.df.features := by
  refine ⟨?_, List.filter_sublist _, rfl⟩
  ext x
  simp only [MemoryDecorator.load, List.mem_toFinset, List.mem_map, List.mem_filter,
    Finset.mem_inter, decide_eq_true_eq]
  constructor
  · rintro ⟨a, ⟨ha, hmem⟩, rfl⟩
    exact ⟨⟨a, ha, rfl⟩, hmem⟩
  · rintro ⟨⟨a, ha, rfl⟩, hmem⟩
    exact ⟨a, ⟨ha, hmem⟩, rfl⟩

/-- C8: a second load with the same signature returns the same table and
the same cache as the first, and the values of the genes and total_genes
properties are unchanged by a load; the decorator load reads only the
immutable cached table, so repeated calls agree and load_full still
returns the retained table. -/
theorem load_idempotent :
    (∀ (db : FeatherRankingDatabase) (c : FeatherCache) (gs : GeneSignature),
        ((db.load ((db.load c gs).2) gs).1 = (db.load c gs).1)
        ∧ ((db.load ((db.load c gs).2) gs).2 = (db.load c gs).2)
        ∧ ((db.genes ((db.load c gs).2)).1 = (db.genes c).1)
        ∧ ((db.total_genes ((db.load c gs).2)).1 = (db.total_genes c).1))
    ∧ ∀ (m : MemoryDecorator) (gs : GeneSignature),
        m.load gs = m.load gs ∧ m.load_full = m.df := by
  constructor
  · intro db c gs
    have h1 := geneset_stable db c
    refine ⟨?_, ?_, genes_after_geneset db c, total_after_geneset db c⟩
    · simp [FeatherRankingDatabase.load, h1]
    · simp [FeatherRankingDatabase.load, h1]
  · intro m gs
    exact ⟨rfl, rfl⟩

/-- C10: the decorator construction runs the wrapped load_full once and
retains its result; load_full returns that retained table; and both
load_full and load of a decorator depend only on the retained table, not
on the wrapped database, so the wrapped load operations are never
invoked after construction. -/
theorem decorator_frame :
    (∀ (db : FeatherRankingDatabase) (m : MemoryDecorator),
        MemoryDecorator.init db = .ok m →
          m.df = db.load_full ∧ m.load_full = db.load_full)
    ∧ (∀ (m1 m2 : MemoryDecorator), m1.df = m2.df →
        m1.load_full = m2.load_full ∧ ∀ gs, m1.load gs = m2.load gs) := by
  constructor
  · intro db m h
    by_cases hn : db.name = ""
    · simp [MemoryDecorator.init, hn] at h
    · simp [MemoryDecorator.init, hn] at h
      subst h
      exact ⟨rfl, rfl⟩
  · intro m1 m2 h
    exact ⟨h, fun gs => by simp [MemoryDecorator.load, h]⟩

/-- C10 witness: the theorem applied to dbW and mW, and to mW against
itself for the frame part. -/
theorem decorator_frame_witness :
    MemoryDecorator.init dbW = .ok mW ∧ mW.df = dbW.load_full
    ∧ mW.load gsW = mW.load gsW :=
  ⟨rfl, (decorator_frame.1 dbW mW rfl).1, (decorator_frame.2 mW mW rfl).2 gsW⟩

end Ctxcore
